import Mathlib

/-
  Verification development for the ArdusatSDK-Logging binary record
  encoding and file-naming/rotation protocol.

  The repository contains two revisions of the same translation unit
  (`ArdusatLogging.cpp`): the `logBytes` revision (src/unnamed/part_002,
  matching the header src/ArdusatLogging.h) and the 8/25/2015 `writeBytes`
  revision (src/unnamed/part_001, matching the header src/unnamed/part_003).
  Both are embedded below.  The target platform is AVR Arduino
  (8-bit, little-endian, `int` is 16 bits, `long` is 32 bits, struct
  alignment is 1 so the packed struct layouts have no padding).

  Machine integers are modeled as `Nat` with explicit `% 256`, `% 2^16`,
  `% 2^32` where the C types truncate.  C `float` fields are only ever
  memcpy'd, never computed with, so a float value is modeled by its
  IEEE-754 single-precision bit pattern (a `Nat < 2^32`), serialized in
  the AVR's little-endian byte order.
-/

namespace ArdusatLogging

/-! ### Byte-level serialization helpers -/

/-- One byte of an 8-bit value (`uint8_t` / `unsigned char`). -/
def u8 (x : Nat) : List Nat := [x % 256]

/-- Little-endian bytes of a 16-bit value (`unsigned int` on AVR). -/
def u16le (x : Nat) : List Nat := [x % 256, x / 256 % 256]

/-- Little-endian bytes of a 32-bit value (`unsigned long` / `uint32_t` on AVR). -/
def u32le (x : Nat) : List Nat :=
  [x % 256, x / 256 % 256, x / 65536 % 256, x / 16777216 % 256]

/-- A C `float` field is stored by copying its IEEE-754 single-precision
bit pattern verbatim, in the AVR's native little-endian byte order. -/
def f32le (bits : Nat) : List Nat := u32le bits

/-- Bytes of a C string (ASCII code points), as handed to `writeBytes`
by `writeString` / `logString`. -/
def strBytes (s : String) : List Nat := s.data.map Char.toNat

/-! ### The Session Manager write path

`logBytes` (src/unnamed/part_002 lines 45-72) and `writeBytes`
(src/unnamed/part_001 lines 64-91) are textually identical:

```c
int logBytes(const unsigned char *buffer, unsigned char numBytes)
{
  unsigned char *buf;
  int written;
  bool buf_allocated = false;
  if (numBytes > OUTPUT_BUF_SIZE - 1) {
    numBytes = OUTPUT_BUF_SIZE - 1;
  }
  if (file.isOpen()) {
    if (buffer == (unsigned char *) _getOutBuf()) {
      buf = (unsigned char *) malloc(numBytes);
      buf_allocated = true;
      memcpy(buf, buffer, numBytes);
    } else {
      buf = (unsigned char *) buffer;
    }
    written = file.write(buf, numBytes);
    file.sync();
    if (buf_allocated)
      free(buf);
    return written;
  } else {
    return 0;
  }
}
```
-/

/-- An interaction with the SD device: a `file.write(buf, n)` call
(recording the bytes handed over and the count), or a `file.sync()`. -/
inductive DevEvent where
  | write (chunk : List Nat) (count : Nat) : DevEvent
  | sync : DevEvent
  deriving DecidableEq, Repr

/-- The mutable state owned by the Session Manager: whether the global
`File file` handle is open, the writes made to the currently open file
since it was opened, the full device interaction trace, and the
`OUTPUT_BUF_SIZE` global. -/
structure SessionState where
  fileOpen : Bool
  fileWrites : List (List Nat)
  trace : List DevEvent
  OUTPUT_BUF_SIZE : Nat
  deriving DecidableEq, Repr

/-- `logBytes` (src/unnamed/part_002 lines 45-72).  The `numBytes`
parameter has C type `unsigned char`, so the caller's argument is
reduced mod 256 on entry.  The cap assignment
`numBytes = OUTPUT_BUF_SIZE - 1` also stores into the `unsigned char`
parameter, hence its own `% 256`.  The defensive aliasing copy
(`malloc`/`memcpy` when `buffer == _getOutBuf()`) hands the device a
bitwise-identical buffer, so it does not appear in the byte-level model.
`file.write` is modeled as reporting the full count.  The model assumes
`OUTPUT_BUF_SIZE ≥ 1` (the library only ever sets it to 512). -/
def logBytes (st : SessionState) (buffer : List Nat) (numBytes : Nat) :
    Nat × SessionState :=
  let nb0 := numBytes % 256
  let nb := if nb0 > st.OUTPUT_BUF_SIZE - 1 then (st.OUTPUT_BUF_SIZE - 1) % 256 else nb0
  if st.fileOpen then
    let chunk := buffer.take nb
    (nb, ⟨st.fileOpen, st.fileWrites ++ [chunk],
          st.trace ++ [DevEvent.write chunk nb, DevEvent.sync],
          st.OUTPUT_BUF_SIZE⟩)
  else
    (0, st)

/-- `writeBytes` (src/unnamed/part_001 lines 64-91) is textually
identical to `logBytes`. -/
def writeBytes (st : SessionState) (buffer : List Nat) (numBytes : Nat) :
    Nat × SessionState :=
  logBytes st buffer numBytes

/-! ### The working-prefix copy in `beginDataLog`

```c
  char prefix[8];
  ...
  memcpy(prefix, fileNamePrefix, 7);
  prefix[7] = '\0';
```
(src/unnamed/part_002 lines 321-324, src/unnamed/part_001 lines 351-354).
The caller's buffer is a byte array; `memcpy` reads its bytes 0..6
unconditionally.  A read past the end of the buffer is undefined
behavior, modeled as `none`. -/

/-- The `n`-byte read that `memcpy(dst, src, n)` performs starting at
`src + start`; `none` when any of the `n` reads falls past the end of
the source buffer. -/
def memcpyRead (src : List Nat) (start n : Nat) : Option (List Nat) :=
  match n with
  | 0 => some []
  | k + 1 =>
    match src.get? start with
    | none => none
    | some b => (memcpyRead src (start + 1) k).map (fun bs => b :: bs)

/-- The working prefix array that `beginDataLog` builds from the
caller's `fileNamePrefix` buffer: the 7 bytes `memcpy` reads, followed
by the `'\0'` stored at `prefix[7]`. -/
def beginDataLogPrefixCopy (callerBuf : List Nat) : Option (List Nat) :=
  (memcpyRead callerBuf 0 7).map (fun bs => bs ++ [0])

/-! ### The naming/rotation loop of `beginDataLog`

```c
  while (true) {
    if (i < 10) {
      max_len = 7;
    } else if (i < 100) {
      max_len = 6;
    } else if (i < 1000) {
      max_len = 5;
    } else {
      break;
    }
    prefix[max_len - 1] = '\0';
    sprintf(fileName, "%s/%s%d.%s", rootPath, prefix, i,
            csvData ? "csv" : "bin");
    if (!sd.exists(fileName)) {
      file = sd.open(fileName, FILE_WRITE);
      break;
    }
    i++;
  }
```
(src/unnamed/part_002 lines 330-349, src/unnamed/part_001 lines 360-379).

The string value of the `prefix` array starts as the first 7 characters
of the argument string; storing `'\0'` at `prefix[max_len - 1]`
truncates it to at most `max_len - 1` characters, and since `max_len`
never increases as `i` grows, the string value at iteration `i` is the
original prefix truncated to `max_len - 1` characters.  The filesystem
is modeled as the list of existing paths (`sd.exists`). -/

/-- One pass of the `while (true)` naming loop, starting at index `i`.
The loop runs at most 1000 iterations plus the final `break`, so fuel
1001 from `i = 0` is exact.  Returns the name of the file created
(`sd.open(fileName, FILE_WRITE)` on a non-existing path creates it), or
`none` when the index reaches 1000 without finding a free slot. -/
def findLoop (fs : List String) (pre7 : String) (csvData : Bool)
    (i fuel : Nat) : Option String :=
  match fuel with
  | 0 => none
  | fuel' + 1 =>
    if i < 1000 then
      let maxLen := if i < 10 then 7 else if i < 100 then 6 else 5
      let name := "/data/" ++ pre7.take (maxLen - 1) ++ Nat.repr i ++ "." ++
        (if csvData then "csv" else "bin")
      if name ∈ fs then findLoop fs pre7 csvData (i + 1) fuel'
      else some name
    else none

/-- The filename search of `beginDataLog`: truncate the caller's prefix
string to 7 characters (`memcpy` of 7 bytes plus `prefix[7] = '\0'`),
then run the naming loop from index 0. -/
def findLogFileName (fs : List String) (fileNamePre : String) (csvData : Bool) :
    Option String :=
  findLoop fs (fileNamePre.take 7) csvData 0 1001

/-! ### Environment and `beginDataLog` -/

/-- The external collaborators `beginDataLog` consults: the DS1307
clock (`RTC.isrunning()`, `now.unixtime()`, `millis()`), the
`freeMemory()` guard, the results of `sd.begin` and `sd.mkdir`, and the
set of paths existing on the card (`sd.exists`).  `junk1`/`junk2` are
the two indeterminate bytes that `_write_binary_time_header`
(src/unnamed/part_001) copies from past the end of its 16-bit
`unixtime` variable. -/
structure Env where
  clockRunning : Bool
  unixtime : Nat
  millis : Nat
  junk1 : Nat
  junk2 : Nat
  freeMemory : Nat
  sdBeginOk : Bool
  mkdirOk : Bool
  fs : List String
  deriving DecidableEq, Repr

/-- The initialization steps shared verbatim by both revisions of
`beginDataLog` (src/unnamed/part_002 lines 295-352, src/unnamed/part_001
lines 315-383): set `OUTPUT_BUF_SIZE = 512`, run the `freeMemory() < 400`
guard, else `ret = sd.begin(...)`; if `ret`, ensure `/data` exists
(`sd.mkdir` when missing), then run the naming loop; on a free slot,
`file = sd.open(fileName, FILE_WRITE)` replaces the global file handle
with the newly created (empty) file.  On any failure the global `file`
handle is left untouched. -/
def beginDataLogCore (env : Env) (fileNamePre : String) (csvData : Bool)
    (st : SessionState) : SessionState :=
  let st1 : SessionState := ⟨st.fileOpen, st.fileWrites, st.trace, 512⟩
  let ret : Bool := if env.freeMemory < 400 then false else env.sdBeginOk
  if ret then
    if (if "/data" ∈ env.fs then true else env.mkdirOk) then
      match findLogFileName env.fs fileNamePre csvData with
      | some _ => ⟨true, [], st1.trace, st1.OUTPUT_BUF_SIZE⟩
      | none => st1
    else st1
  else st1

/-- `beginDataLog` (src/unnamed/part_002 lines 295-353): the
initialization steps, then `return file.isOpen();`.  This revision
writes no time header of any kind; the Time-Reference Record is
produced only by the separate `logRTCTimestamp` /
`binaryLogRTCTimestamp` entry points. -/
def beginDataLog (env : Env) (fileNamePre : String) (csvData : Bool)
    (st : SessionState) : Bool × SessionState :=
  let st2 := beginDataLogCore env fileNamePre csvData st
  (st2.fileOpen, st2)

/-! ### Time-Reference Record encoders -/

/-- `_log_binary_time_header` (src/unnamed/part_002 lines 271-281):

```c
  unsigned char buf[10];
  unsigned long unixtime = now.unixtime();
  buf[0] = 0xFF;
  buf[1] = 0xFF;
  memcpy(buf + 2, &unixtime, 4);
  memcpy(buf + 6, &curr_millis, 4);
  return logBytes(buf, 10);
```
`unsigned long` is 32 bits on AVR, so the full unix-seconds value is
stored. -/
def logBinaryTimeHeaderBytes (t m : Nat) : List Nat :=
  [0xFF, 0xFF] ++ u32le t ++ u32le m

/-- `_write_binary_time_header` (src/unnamed/part_001 lines 291-301):

```c
  unsigned char buf[10];
  unsigned int unixtime = now.unixtime();
  buf[0] = 0xFF;
  buf[1] = 0xFF;
  memcpy(buf + 2, &unixtime, 4);
  memcpy(buf + 6, &curr_millis, 4);
  return writeBytes(buf, 10);
```
On the AVR target `unsigned int` is 16 bits, so the assignment keeps
only `unixtime % 2^16`, and `memcpy(buf + 2, &unixtime, 4)` copies the
two bytes of the variable followed by two indeterminate bytes from past
its end (`j1`, `j2`). -/
def writeBinaryTimeHeaderBytes (j1 j2 t m : Nat) : List Nat :=
  [0xFF, 0xFF] ++ u16le t ++ [j1 % 256, j2 % 256] ++ u32le m

/-- The CSV time header text of the part_001 revision
(`_write_csv_time_header`, format string
`"timestamp: %lu at millis %lu\n"`); `%lu` prints the 32-bit values. -/
def csvTimeHeaderText (t m : Nat) : String :=
  "timestamp: " ++ Nat.repr (t % 4294967296) ++ " at millis " ++
    Nat.repr (m % 4294967296) ++ "\n"

/-- The chunk that `writeString(_getOutBuf())` hands to the device for
the CSV time header: `writeBytes` receives `strlen` reduced to its
`unsigned char` parameter and takes that many bytes. -/
def csvTimeHeaderChunk (t m : Nat) : List Nat :=
  let bs := strBytes (csvTimeHeaderText t m)
  bs.take (bs.length % 256)

/-- `_write_csv_time_header` (src/unnamed/part_001 lines 279-289):
format the header text into the output buffer and `writeString` it
(the aliasing defensive copy in `writeBytes` hands over the same
bytes). -/
def writeCsvTimeHeader (t m : Nat) (st : SessionState) : Nat × SessionState :=
  let bs := strBytes (csvTimeHeaderText t m)
  writeBytes st bs bs.length

/-- `_write_binary_time_header` as a state transformer:
`writeBytes(buf, 10)`. -/
def writeBinaryTimeHeader (j1 j2 t m : Nat) (st : SessionState) :
    Nat × SessionState :=
  writeBytes st (writeBinaryTimeHeaderBytes j1 j2 t m) 10

/-- `beginDataLog` of the 8/25/2015 revision (src/unnamed/part_001
lines 315-394): reads the clock at the top (`RTC.isrunning()`, `now`,
`millis()`), runs the shared initialization steps, and then

```c
  if (RTC.isrunning() && file.isOpen()) {
    if (csvData) {
      _write_csv_time_header(now, curr_millis);
    } else {
      _write_binary_time_header(now, curr_millis);
    }
  }
  return file.isOpen();
```
-/
def beginDataLog2015 (env : Env) (fileNamePre : String) (csvData : Bool)
    (st : SessionState) : Bool × SessionState :=
  let st2 := beginDataLogCore env fileNamePre csvData st
  let st3 :=
    if env.clockRunning && st2.fileOpen then
      if csvData then (writeCsvTimeHeader env.unixtime env.millis st2).2
      else (writeBinaryTimeHeader env.junk1 env.junk2 env.unixtime env.millis st2).2
    else st2
  (st3.fileOpen, st3)

/-! ### Record Encoder

The binary record structs of src/utility/BinaryDataFmt.h, laid out on
the AVR target (alignment 1, no padding):

```c
#define _bin_data_header uint8_t type; uint8_t id; uint32_t timestamp;
```

Each struct is `_bin_data_header` followed by its `float` payload
fields; `sizeof` is 6 + 4·(payload float count).  The eight
`binaryLog*` functions (src/unnamed/part_002 lines 184-254; the
`binaryWrite*` functions of src/unnamed/part_001 lines 203-273 are
identical) fill such a struct and hand its bytes to
`logBytes((unsigned char *) &bin_data, sizeof(...))`. -/

/-- `ardusat_sensor_types_e` (src/utility/BinaryDataFmt.h lines 16-25). -/
def ARDUSAT_SENSOR_TYPE_ACCELERATION : Nat := 0
def ARDUSAT_SENSOR_TYPE_MAGNETIC : Nat := 1
def ARDUSAT_SENSOR_TYPE_GYRO : Nat := 2
def ARDUSAT_SENSOR_TYPE_ORIENTATION : Nat := 3
def ARDUSAT_SENSOR_TYPE_TEMPERATURE : Nat := 4
def ARDUSAT_SENSOR_TYPE_LUMINOSITY : Nat := 5
def ARDUSAT_SENSOR_TYPE_UV : Nat := 6
def ARDUSAT_SENSOR_TYPE_PRESSURE : Nat := 7

/-- The fields of the ArdusatSDK reading header used by the encoders
(`data.header.timestamp`, the session-relative millisecond timestamp
captured when the reading was taken). -/
structure ReadingHeader where
  timestamp : Nat
  deriving DecidableEq, Repr

/-- `acceleration_t` (ArdusatSDK), fields used by the encoder; float
values carried as IEEE-754 single bit patterns. -/
structure acceleration_t where
  header : ReadingHeader
  x : Nat
  y : Nat
  z : Nat
  deriving DecidableEq, Repr

structure magnetic_t where
  header : ReadingHeader
  x : Nat
  y : Nat
  z : Nat
  deriving DecidableEq, Repr

structure gyro_t where
  header : ReadingHeader
  x : Nat
  y : Nat
  z : Nat
  deriving DecidableEq, Repr

structure temperature_t where
  header : ReadingHeader
  t : Nat
  deriving DecidableEq, Repr

structure luminosity_t where
  header : ReadingHeader
  lux : Nat
  deriving DecidableEq, Repr

structure uvlight_t where
  header : ReadingHeader
  uvindex : Nat
  deriving DecidableEq, Repr

structure orientation_t where
  header : ReadingHeader
  roll : Nat
  pitch : Nat
  heading : Nat
  deriving DecidableEq, Repr

structure pressure_t where
  header : ReadingHeader
  pressure : Nat
  deriving DecidableEq, Repr

/-- The `_bin_data_header` bytes: `uint8_t type; uint8_t id;
uint32_t timestamp;`, packed (6 bytes). -/
def binDataHeaderBytes (type id timestamp : Nat) : List Nat :=
  u8 type ++ u8 id ++ u32le timestamp

/-- `binaryLogAcceleration` (src/unnamed/part_002 lines 184-192): the
bytes of the `acceleration_bin_t` struct handed to `logBytes`. -/
def binaryLogAcceleration (sensorId : Nat) (data : acceleration_t) : List Nat :=
  binDataHeaderBytes ARDUSAT_SENSOR_TYPE_ACCELERATION sensorId data.header.timestamp ++
    f32le data.x ++ f32le data.y ++ f32le data.z

/-- `binaryLogMagnetic` (src/unnamed/part_002 lines 194-202). -/
def binaryLogMagnetic (sensorId : Nat) (data : magnetic_t) : List Nat :=
  binDataHeaderBytes ARDUSAT_SENSOR_TYPE_MAGNETIC sensorId data.header.timestamp ++
    f32le data.x ++ f32le data.y ++ f32le data.z

/-- `binaryLogGyro` (src/unnamed/part_002 lines 204-212). -/
def binaryLogGyro (sensorId : Nat) (data : gyro_t) : List Nat :=
  binDataHeaderBytes ARDUSAT_SENSOR_TYPE_GYRO sensorId data.header.timestamp ++
    f32le data.x ++ f32le data.y ++ f32le data.z

/-- `binaryLogTemperature` (src/unnamed/part_002 lines 214-220). -/
def binaryLogTemperature (sensorId : Nat) (data : temperature_t) : List Nat :=
  binDataHeaderBytes ARDUSAT_SENSOR_TYPE_TEMPERATURE sensorId data.header.timestamp ++
    f32le data.t

/-- `binaryLogLuminosity` (src/unnamed/part_002 lines 222-228). -/
def binaryLogLuminosity (sensorId : Nat) (data : luminosity_t) : List Nat :=
  binDataHeaderBytes ARDUSAT_SENSOR_TYPE_LUMINOSITY sensorId data.header.timestamp ++
    f32le data.lux

/-- `binaryLogUVLight` (src/unnamed/part_002 lines 230-236). -/
def binaryLogUVLight (sensorId : Nat) (data : uvlight_t) : List Nat :=
  binDataHeaderBytes ARDUSAT_SENSOR_TYPE_UV sensorId data.header.timestamp ++
    f32le data.uvindex

/-- `binaryLogOrientation` (src/unnamed/part_002 lines 238-246). -/
def binaryLogOrientation (sensorId : Nat) (data : orientation_t) : List Nat :=
  binDataHeaderBytes ARDUSAT_SENSOR_TYPE_ORIENTATION sensorId data.header.timestamp ++
    f32le data.roll ++ f32le data.pitch ++ f32le data.heading

/-- `binaryLogPressure` (src/unnamed/part_002 lines 248-254). -/
def binaryLogPressure (sensorId : Nat) (data : pressure_t) : List Nat :=
  binDataHeaderBytes ARDUSAT_SENSOR_TYPE_PRESSURE sensorId data.header.timestamp ++
    f32le data.pressure

/-! ### Decoding helpers (the binary format of BinaryDataFmt.h read back) -/

/-- Read one byte at offset `i` of a record. -/
def decodeU8 (b : List Nat) (i : Nat) : Option Nat := b.get? i

/-- Read a little-endian 32-bit value at offset `i` of a record. -/
def decodeU32le (b : List Nat) (i : Nat) : Option Nat :=
  match b.get? i, b.get? (i + 1), b.get? (i + 2), b.get? (i + 3) with
  | some a, some b1, some c, some d =>
    some (a + 256 * b1 + 65536 * c + 16777216 * d)
  | _, _, _, _ => none

/-- Decode the 6-byte `_bin_data_header` of a record:
`(type, id, timestamp)`. -/
def decodeHeader (b : List Nat) : Option (Nat × Nat × Nat) :=
  match decodeU8 b 0, decodeU8 b 1, decodeU32le b 2 with
  | some ty, some id, some ts => some (ty, id, ts)
  | _, _, _ => none

/-- IEEE-754 single-precision bit pattern of 1.5
(sign 0, exponent 127, fraction 0.5). -/
def float32bits_1_5 : Nat := 0x3FC00000

/-- IEEE-754 single-precision bit pattern of -2.25
(sign 1, exponent 128, fraction 0.125). -/
def float32bits_neg2_25 : Nat := 0xC0100000

/-- IEEE-754 single-precision bit pattern of 0.0. -/
def float32bits_0 : Nat := 0x00000000

/-! ### Helper lemmas -/

/-- `memcpy` succeeds (reads no byte past the end of the source) exactly
when the whole range it reads lies inside the source buffer, and then it
returns that range. -/
theorem memcpyRead_eq_take (src : List Nat) :
    ∀ (n start : Nat), start + n ≤ src.length →
      memcpyRead src start n = some ((src.drop start).take n) := by
  intro n
  induction n with
  | zero => intro start _; simp [memcpyRead]
  | succ k ih =>
    intro start h
    have hs : start < src.length := by omega
    have hget : src.get? start = some src[start] := by
      rw [List.get?_eq_getElem?, List.getElem?_eq_getElem hs]
    have hdrop : src.drop start = src[start] :: src.drop (start + 1) :=
      List.drop_eq_getElem_cons hs
    rw [memcpyRead, hget, ih (start + 1) (by omega), hdrop]
    rfl

/-- Every branch of the shared `beginDataLog` initialization leaves
`OUTPUT_BUF_SIZE = 512` (the assignment happens before any guard). -/
theorem beginDataLogCore_OUTPUT_BUF_SIZE (env : Env) (pre : String)
    (csvData : Bool) (st : SessionState) :
    (beginDataLogCore env pre csvData st).OUTPUT_BUF_SIZE = 512 := by
  unfold beginDataLogCore
  dsimp only
  repeat' first | rfl | split

/-- When the memory guard passes, `sd.begin` succeeds, the `/data`
directory exists or can be created, and the naming loop finds a free
slot, the shared initialization opens the newly created (empty) file. -/
theorem beginDataLogCore_success (env : Env) (pre : String) (csvData : Bool)
    (st : SessionState)
    (hmem : 400 ≤ env.freeMemory) (hsd : env.sdBeginOk = true)
    (hdir : "/data" ∈ env.fs ∨ env.mkdirOk = true)
    (hfind : (findLogFileName env.fs pre csvData).isSome = true) :
    beginDataLogCore env pre csvData st = ⟨true, [], st.trace, 512⟩ := by
  have hret : (if env.freeMemory < 400 then false else env.sdBeginOk) = true := by
    rw [if_neg (by omega)]; exact hsd
  have hdir2 : (if "/data" ∈ env.fs then true else env.mkdirOk) = true := by
    rcases hdir with h | h
    · rw [if_pos h]
    · split
      · rfl
      · exact h
  obtain ⟨name, hname⟩ := Option.isSome_iff_exists.mp hfind
  simp only [beginDataLogCore, hret, hdir2, hname, if_true]

/-! ### Claim theorems -/

/-- Claim C1 (code_bug): the claim says index `i` uses a prefix width of
7 characters for `i = 0..9` (6 for 10..99, 5 for 100..999), as the
repository's README also documents (`/DATA/MYLOGFI0.CSV`).  The code's
`prefix[max_len - 1] = '\0'` truncates the working prefix to
`max_len - 1` characters instead, so on an empty card
`beginDataLog(pin, "MYLOGFILE", true)` creates `/data/MYLOGF0.csv`
(6-character prefix) and not the `/data/MYLOGFI0.csv` the claim
requires. -/
theorem c1_naming_width_failing_input :
    findLogFileName [] "MYLOGFILE" true = some "/data/MYLOGF0.csv" ∧
    "/data/MYLOGF0.csv" ≠ "/data/MYLOGFI0.csv" := by
  constructor
  · rfl
  · decide

/-- Claim C3, counterexample: for the caller's buffer holding the
6-byte C string `"MYLOG"` (5 characters plus the terminator), the
`memcpy(prefix, fileNamePrefix, 7)` in `beginDataLog` reads past the
end of the buffer (modeled as `none`), instead of copying
`min(7, 6) = 6` bytes and null-terminating as the claim states. -/
theorem c3_counterexample :
    beginDataLogPrefixCopy [77, 89, 76, 79, 71, 0] = none ∧
    beginDataLogPrefixCopy [77, 89, 76, 79, 71, 0] ≠
      some [77, 89, 76, 79, 71, 0, 0] := by
  constructor
  · rfl
  · decide

/-- Claim C3, amended: `beginDataLog` always reads exactly 7 bytes from
the caller's buffer and null-terminates at index 7; this is safe (and
copies the first 7 bytes) whenever the caller's buffer holds at least
7 bytes, but buffers shorter than 7 bytes are read past their end —
the code never clamps the copy to `min(7, available)`. -/
theorem c3_copies_first_seven (buf : List Nat) (h : 7 ≤ buf.length) :
    beginDataLogPrefixCopy buf = some (buf.take 7 ++ [0]) := by
  unfold beginDataLogPrefixCopy
  rw [memcpyRead_eq_take buf 7 0 (by omega)]
  rfl

/-- Witness for the amended C3 at the 10-byte buffer holding
`"MYLOGFILE"`. -/
theorem c3_copies_first_seven_witness :
    beginDataLogPrefixCopy [77, 89, 76, 79, 71, 70, 73, 76, 69, 0] =
      some [77, 89, 76, 79, 71, 70, 73, 0] :=
  c3_copies_first_seven [77, 89, 76, 79, 71, 70, 73, 76, 69, 0] (by decide)

/-- Claim C4: every record produced by the eight `binaryLog` encoders
starts with the packed 6-byte `_bin_data_header` (1-byte type tag,
1-byte source id, 4-byte little-endian timestamp), is followed
immediately by its float payload with no padding or alignment bytes,
and has total size exactly 18 bytes for the three-axis types
(acceleration, magnetic, gyro, orientation) and exactly 10 bytes for
the single-scalar types (temperature, luminosity, UV, pressure). -/
theorem c4_record_layout (sensorId : Nat) (a : acceleration_t)
    (m : magnetic_t) (g : gyro_t) (o : orientation_t) (t : temperature_t)
    (l : luminosity_t) (u : uvlight_t) (p : pressure_t) :
    ((binDataHeaderBytes ARDUSAT_SENSOR_TYPE_ACCELERATION sensorId
        a.header.timestamp).length = 6 ∧
      (binaryLogAcceleration sensorId a).take 6 =
        binDataHeaderBytes ARDUSAT_SENSOR_TYPE_ACCELERATION sensorId
          a.header.timestamp ∧
      (binaryLogAcceleration sensorId a).drop 6 =
        f32le a.x ++ f32le a.y ++ f32le a.z ∧
      (binaryLogAcceleration sensorId a).length = 18) ∧
    ((binaryLogMagnetic sensorId m).take 6 =
        binDataHeaderBytes ARDUSAT_SENSOR_TYPE_MAGNETIC sensorId
          m.header.timestamp ∧
      (binaryLogMagnetic sensorId m).drop 6 =
        f32le m.x ++ f32le m.y ++ f32le m.z ∧
      (binaryLogMagnetic sensorId m).length = 18) ∧
    ((binaryLogGyro sensorId g).take 6 =
        binDataHeaderBytes ARDUSAT_SENSOR_TYPE_GYRO sensorId
          g.header.timestamp ∧
      (binaryLogGyro sensorId g).drop 6 =
        f32le g.x ++ f32le g.y ++ f32le g.z ∧
      (binaryLogGyro sensorId g).length = 18) ∧
    ((binaryLogOrientation sensorId o).take 6 =
        binDataHeaderBytes ARDUSAT_SENSOR_TYPE_ORIENTATION sensorId
          o.header.timestamp ∧
      (binaryLogOrientation sensorId o).drop 6 =
        f32le o.roll ++ f32le o.pitch ++ f32le o.heading ∧
      (binaryLogOrientation sensorId o).length = 18) ∧
    ((binaryLogTemperature sensorId t).take 6 =
        binDataHeaderBytes ARDUSAT_SENSOR_TYPE_TEMPERATURE sensorId
          t.header.timestamp ∧
      (binaryLogTemperature sensorId t).drop 6 = f32le t.t ∧
      (binaryLogTemperature sensorId t).length = 10) ∧
    ((binaryLogLuminosity sensorId l).take 6 =
        binDataHeaderBytes ARDUSAT_SENSOR_TYPE_LUMINOSITY sensorId
          l.header.timestamp ∧
      (binaryLogLuminosity sensorId l).drop 6 = f32le l.lux ∧
      (binaryLogLuminosity sensorId l).length = 10) ∧
    ((binaryLogUVLight sensorId u).take 6 =
        binDataHeaderBytes ARDUSAT_SENSOR_TYPE_UV sensorId
          u.header.timestamp ∧
      (binaryLogUVLight sensorId u).drop 6 = f32le u.uvindex ∧
      (binaryLogUVLight sensorId u).length = 10) ∧
    ((binaryLogPressure sensorId p).take 6 =
        binDataHeaderBytes ARDUSAT_SENSOR_TYPE_PRESSURE sensorId
          p.header.timestamp ∧
      (binaryLogPressure sensorId p).drop 6 = f32le p.pressure ∧
      (binaryLogPressure sensorId p).length = 10) :=
  ⟨⟨rfl, rfl, rfl, rfl⟩, ⟨rfl, rfl, rfl⟩, ⟨rfl, rfl, rfl⟩, ⟨rfl, rfl, rfl⟩,
    ⟨rfl, rfl, rfl⟩, ⟨rfl, rfl, rfl⟩, ⟨rfl, rfl, rfl⟩, ⟨rfl, rfl, rfl⟩⟩

/-- Claim C5: encoding an acceleration reading with timestamp 12345,
x = 1.5, y = -2.25, z = 0.0 (as their IEEE-754 single bit patterns,
which the code copies verbatim) and source id 1 produces an 18-byte
record whose header decodes to type `ACCELERATION` (0), id 1,
timestamp 12345, and whose three trailing 4-byte floats decode back to
exactly the bit patterns of 1.5, -2.25, 0.0. -/
theorem c5_acceleration_roundtrip :
    (binaryLogAcceleration 1
        ⟨⟨12345⟩, float32bits_1_5, float32bits_neg2_25, float32bits_0⟩).length
      = 18 ∧
    decodeHeader (binaryLogAcceleration 1
        ⟨⟨12345⟩, float32bits_1_5, float32bits_neg2_25, float32bits_0⟩) =
      some (ARDUSAT_SENSOR_TYPE_ACCELERATION, 1, 12345) ∧
    decodeU32le (binaryLogAcceleration 1
        ⟨⟨12345⟩, float32bits_1_5, float32bits_neg2_25, float32bits_0⟩) 6 =
      some float32bits_1_5 ∧
    decodeU32le (binaryLogAcceleration 1
        ⟨⟨12345⟩, float32bits_1_5, float32bits_neg2_25, float32bits_0⟩) 10 =
      some float32bits_neg2_25 ∧
    decodeU32le (binaryLogAcceleration 1
        ⟨⟨12345⟩, float32bits_1_5, float32bits_neg2_25, float32bits_0⟩) 14 =
      some float32bits_0 := by
  decide

/-- Claim C6 (code_bug): the `logBytes` revision's
`_log_binary_time_header` does emit `0xFF 0xFF`, the 4-byte unix
seconds and the 4-byte session millis, but the 2015 revision's
`_write_binary_time_header` declares `unsigned int unixtime` — 16 bits
on the AVR target — so it stores only the low 16 bits of the unix
seconds plus two indeterminate bytes: the records for unix seconds
65536 and 0 are identical (junk bytes fixed at 0 here), while the
`logBytes` revision distinguishes them. -/
theorem c6_unixtime_truncated :
    writeBinaryTimeHeaderBytes 0 0 65536 0 = writeBinaryTimeHeaderBytes 0 0 0 0 ∧
    logBinaryTimeHeaderBytes 65536 0 =
      [0xFF, 0xFF, 0, 0, 1, 0, 0, 0, 0, 0] ∧
    logBinaryTimeHeaderBytes 65536 0 ≠ logBinaryTimeHeaderBytes 0 0 := by
  decide

/-- Claim C7: calling `logBytes` (identically `writeBytes`) when no log
file is open returns 0 and leaves the session state untouched — no
device write, no sync. -/
theorem c7_logBytes_no_open_file (st : SessionState) (buffer : List Nat)
    (numBytes : Nat) (h : st.fileOpen = false) :
    logBytes st buffer numBytes = (0, st) ∧
    writeBytes st buffer numBytes = (0, st) := by
  constructor <;> simp [logBytes, writeBytes, h]

/-- Witness for C7 at a concrete closed session state. -/
theorem c7_logBytes_no_open_file_witness :
    logBytes ⟨false, [], [], 512⟩ [1, 2, 3] 3 = (0, ⟨false, [], [], 512⟩) ∧
    writeBytes ⟨false, [], [], 512⟩ [1, 2, 3] 3 = (0, ⟨false, [], [], 512⟩) :=
  c7_logBytes_no_open_file ⟨false, [], [], 512⟩ [1, 2, 3] 3 rfl

/-- Claim C8: in every execution of `logBytes` in which the device write
is performed (the file is open), the device trace produced before
returning is exactly the write immediately followed by a sync — no
write is ever left unsynced. -/
theorem c8_write_immediately_synced (st : SessionState) (buffer : List Nat)
    (numBytes : Nat) (h : st.fileOpen = true) :
    ∃ chunk n,
      (logBytes st buffer numBytes).2.trace =
        st.trace ++ [DevEvent.write chunk n, DevEvent.sync] := by
  refine ⟨buffer.take (if numBytes % 256 > st.OUTPUT_BUF_SIZE - 1
      then (st.OUTPUT_BUF_SIZE - 1) % 256 else numBytes % 256),
    (if numBytes % 256 > st.OUTPUT_BUF_SIZE - 1
      then (st.OUTPUT_BUF_SIZE - 1) % 256 else numBytes % 256), ?_⟩
  simp [logBytes, h]

/-- Witness for C8 at a concrete open session state. -/
theorem c8_write_immediately_synced_witness :
    ∃ chunk n,
      (logBytes ⟨true, [], [], 512⟩ [1, 2, 3] 3).2.trace =
        [] ++ [DevEvent.write chunk n, DevEvent.sync] :=
  c8_write_immediately_synced ⟨true, [], [], 512⟩ [1, 2, 3] 3 rfl

/-- Claim C2, counterexample: in the `logBytes` revision
(src/unnamed/part_002), `beginDataLog` succeeds with the clock source
running, yet writes nothing at all to the new file — in particular no
Time-Reference Record is emitted as its first write. -/
theorem c2_counterexample :
    (beginDataLog ⟨true, 1700000000, 12345, 0, 0, 500, true, true, []⟩
        "MYLOG" false ⟨false, [], [], 0⟩).1 = true ∧
    Env.clockRunning ⟨true, 1700000000, 12345, 0, 0, 500, true, true, []⟩ = true ∧
    (beginDataLog ⟨true, 1700000000, 12345, 0, 0, 500, true, true, []⟩
        "MYLOG" false ⟨false, [], [], 0⟩).2.fileWrites = [] ∧
    (beginDataLog ⟨true, 1700000000, 12345, 0, 0, 500, true, true, []⟩
        "MYLOG" false ⟨false, [], [], 0⟩).2.trace = [] := by
  refine ⟨rfl, rfl, rfl, rfl⟩

/-- Claim C2, amended (holds of the 2015 `writeBytes` revision,
src/unnamed/part_001): when its `beginDataLog` opens a new file and the
clock source reports running, the Time-Reference Record — CSV or binary
flavor matching `csvData` — is the first (and only) write made to the
newly created file by `beginDataLog`; when the clock reports
not-running, `beginDataLog` writes nothing to the new file. -/
theorem c2_time_header_2015 (env : Env) (pre : String) (csvData : Bool)
    (st : SessionState)
    (hmem : 400 ≤ env.freeMemory) (hsd : env.sdBeginOk = true)
    (hdir : "/data" ∈ env.fs ∨ env.mkdirOk = true)
    (hfind : (findLogFileName env.fs pre csvData).isSome = true) :
    (beginDataLog2015 env pre csvData st).1 = true ∧
    (beginDataLog2015 env pre csvData st).2.fileWrites =
      (if env.clockRunning then
        (if csvData then [csvTimeHeaderChunk env.unixtime env.millis]
         else [writeBinaryTimeHeaderBytes env.junk1 env.junk2
                 env.unixtime env.millis])
       else []) := by
  have hcore := beginDataLogCore_success env pre csvData st hmem hsd hdir hfind
  cases hrun : env.clockRunning with
  | false => simp [beginDataLog2015, hcore, hrun]
  | true =>
    cases csvData with
    | false =>
      have hcap : ¬ ((10 : Nat) % 256 > 512 - 1) := by omega
      have htake : (writeBinaryTimeHeaderBytes env.junk1 env.junk2
          env.unixtime env.millis).take (10 % 256) =
          writeBinaryTimeHeaderBytes env.junk1 env.junk2
            env.unixtime env.millis := by
        apply List.take_of_length_le
        simp [writeBinaryTimeHeaderBytes, u16le, u32le]
      simp [beginDataLog2015, hcore, hrun, writeBinaryTimeHeader,
        writeBytes, logBytes, hcap, htake]
    | true =>
      have h255 : (strBytes (csvTimeHeaderText env.unixtime env.millis)).length
          % 256 < 256 := Nat.mod_lt _ (by omega)
      have hcap : ¬ ((strBytes (csvTimeHeaderText env.unixtime env.millis)).length
          % 256 > 512 - 1) := by omega
      simp [beginDataLog2015, hcore, hrun, writeCsvTimeHeader,
        writeBytes, logBytes, csvTimeHeaderChunk, hcap]

/-- Witness for the amended C2 at a concrete environment (running
clock, fresh card, CSV mode). -/
theorem c2_time_header_2015_witness :
    (beginDataLog2015 ⟨true, 1700000000, 12345, 9, 9, 500, true, true, []⟩
        "MYLOG" true ⟨false, [], [], 0⟩).1 = true ∧
    (beginDataLog2015 ⟨true, 1700000000, 12345, 9, 9, 500, true, true, []⟩
        "MYLOG" true ⟨false, [], [], 0⟩).2.fileWrites =
      (if Env.clockRunning ⟨true, 1700000000, 12345, 9, 9, 500, true, true, []⟩ then
        (if true then [csvTimeHeaderChunk 1700000000 12345]
         else [writeBinaryTimeHeaderBytes 9 9 1700000000 12345])
       else []) :=
  c2_time_header_2015 ⟨true, 1700000000, 12345, 9, 9, 500, true, true, []⟩
    "MYLOG" true ⟨false, [], [], 0⟩ (by decide) rfl (Or.inr rfl) (by decide)

/-- Claim C9: after a successful `beginDataLog` (whose shared
initialization sets `OUTPUT_BUF_SIZE` to 512), the chunk-size cap
branch of `logBytes` is unreachable: the `unsigned char` parameter
value `numBytes % 256` is at most 255 < 511 = `OUTPUT_BUF_SIZE - 1`, so
with the file open every call hands exactly that many bytes to the
device in a single write. -/
theorem c9_cap_unreachable (env : Env) (pre : String) (csvData : Bool)
    (st0 : SessionState) (buffer : List Nat) (numBytes : Nat)
    (hopen : (beginDataLogCore env pre csvData st0).fileOpen = true) :
    ¬ (numBytes % 256 >
        (beginDataLogCore env pre csvData st0).OUTPUT_BUF_SIZE - 1) ∧
    logBytes (beginDataLogCore env pre csvData st0) buffer numBytes =
      (numBytes % 256,
       ⟨true,
        (beginDataLogCore env pre csvData st0).fileWrites ++
          [buffer.take (numBytes % 256)],
        (beginDataLogCore env pre csvData st0).trace ++
          [DevEvent.write (buffer.take (numBytes % 256)) (numBytes % 256),
           DevEvent.sync],
        512⟩) := by
  have hbuf := beginDataLogCore_OUTPUT_BUF_SIZE env pre csvData st0
  have h255 : numBytes % 256 < 256 := Nat.mod_lt _ (by omega)
  have hcap2 : ¬ (numBytes % 256 > 512 - 1) := by omega
  refine ⟨by rw [hbuf]; exact hcap2, ?_⟩
  simp [logBytes, hbuf, hopen, hcap2]

/-- Witness for C9: a successful `beginDataLog` on a fresh card followed
by a 3-byte `logBytes` call that hands exactly 3 bytes to the device. -/
theorem c9_cap_unreachable_witness :
    ¬ ((3 : Nat) % 256 >
        (beginDataLogCore ⟨true, 5, 7, 0, 0, 500, true, true, []⟩ "MYLOG" false
          ⟨false, [], [], 0⟩).OUTPUT_BUF_SIZE - 1) ∧
    logBytes (beginDataLogCore ⟨true, 5, 7, 0, 0, 500, true, true, []⟩ "MYLOG"
        false ⟨false, [], [], 0⟩) [1, 2, 3] 3 =
      (3 % 256,
       ⟨true,
        (beginDataLogCore ⟨true, 5, 7, 0, 0, 500, true, true, []⟩ "MYLOG" false
          ⟨false, [], [], 0⟩).fileWrites ++ [[1, 2, 3].take (3 % 256)],
        (beginDataLogCore ⟨true, 5, 7, 0, 0, 500, true, true, []⟩ "MYLOG" false
          ⟨false, [], [], 0⟩).trace ++
          [DevEvent.write ([1, 2, 3].take (3 % 256)) (3 % 256), DevEvent.sync],
        512⟩) :=
  c9_cap_unreachable ⟨true, 5, 7, 0, 0, 500, true, true, []⟩ "MYLOG" false
    ⟨false, [], [], 0⟩ [1, 2, 3] 3 (by decide)

/-- Claim C10: `beginDataLog` (src/unnamed/part_002) returns
`file.isOpen()`, the open state of the global file handle, not the
success of its own initialization steps: if a log file is already open
from a previous session and the memory-headroom guard or `sd.begin`
fails, the call still returns `true` and leaves the previously opened
file — its open flag, its accumulated writes, the device trace —
untouched as the write target (only `OUTPUT_BUF_SIZE` is reset to 512). -/
theorem c10_stale_open_file (env : Env) (pre : String) (csvData : Bool)
    (st : SessionState) (hopen : st.fileOpen = true)
    (hfail : env.freeMemory < 400 ∨ env.sdBeginOk = false) :
    (beginDataLog env pre csvData st).1 = true ∧
    (beginDataLog env pre csvData st).2 =
      ⟨true, st.fileWrites, st.trace, 512⟩ := by
  have hret : (if env.freeMemory < 400 then false else env.sdBeginOk) = false := by
    rcases hfail with h | h
    · rw [if_pos h]
    · rw [h]
      split <;> rfl
  simp only [beginDataLog, beginDataLogCore, hret]
  simp [hopen]

/-- Witness for C10: a failed memory guard after a previous successful
session still reports success and keeps the old file as write target. -/
theorem c10_stale_open_file_witness :
    (beginDataLog ⟨false, 0, 0, 0, 0, 100, true, true, []⟩ "MYLOG" true
        ⟨true, [[1]], [DevEvent.sync], 512⟩).1 = true ∧
    (beginDataLog ⟨false, 0, 0, 0, 0, 100, true, true, []⟩ "MYLOG" true
        ⟨true, [[1]], [DevEvent.sync], 512⟩).2 =
      ⟨true, [[1]], [DevEvent.sync], 512⟩ :=
  c10_stale_open_file ⟨false, 0, 0, 0, 0, 100, true, true, []⟩ "MYLOG" true
    ⟨true, [[1]], [DevEvent.sync], 512⟩ rfl (Or.inl (by decide))

end ArdusatLogging
